import Mathlib

/-!
Verification development for the vllm-ascend rotary-embedding binding layer.

The repository contains two dispatchers for the fused RoPE (rotary positional
embedding) operator:

* `rotary_embedding` (generic GPU backend, `src/unnamed/part_000`): derives the
  shape descriptor from tensor metadata, builds a launch configuration with one
  block per token and `min(num_heads * rot_dim / 2, 512)` threads per block,
  dispatches on the floating dtype, and launches either the neox or the
  interleaved template instantiation of `vllm::rotary_embedding_kernel`
  according to the `is_neox` flag.

* `vllm_ascend::rotary_embedding` (NPU backend, `src/csrc/torch_binding.cpp`):
  derives the same shape descriptor, queries the runtime platform information
  for hard-coded device id 0, reads the "aiv" core count, sizes the per-core
  loop count as `(num_tokens + aivNum - 1) / aivNum` and submits
  `rotary_embedding_kernel` through an OpCommand custom handler.

Neither dispatcher validates its inputs: the head counts are obtained by
truncating integer division and no shape precondition is checked.

The kernel body itself is not part of the repository fragment; it is modelled
from the spec (sections 3, 4.2 and the glossary) as `vllm.rotary_embedding_kernel`
below.  All integer quantities in the C++ sources are non-negative sizes,
strides and counts, so they are embedded as `Nat` (C++ `/` on non-negative
operands is truncating division, which agrees with `Nat.div`).  Buffers are
flat memories `Nat → α` over a commutative ring `α` of scalar values, mutated
functionally: the in-place kernel performs all reads of a rotation pair before
its writes, so one functional update per work unit is the faithful semantics.
-/

/-- Scalar dtypes that can tag a tensor.  The exact supported set of the
dispatch macro `VLLM_DISPATCH_FLOATING_TYPES` is outside the fragment, so the
GPU dispatcher below is parameterised by a predicate selecting the floating
types it accepts. -/
inductive DType where
  | f16 | bf16 | f32 | f64 | i32 | i64
deriving DecidableEq, Repr

/-- The tensor metadata the dispatchers read: the shape (`numel`, `size(-1)`,
`size(1)`), the row stride `stride(-2)`, the dtype, the device the tensor
resides on, and the flat data pointer. -/
structure Tensor (α : Type) where
  shape : List Nat
  strideNeg2 : Nat
  dtype : DType
  device : Nat
  data : Nat → α

/-- `numel()`: total number of elements, the product of the shape. -/
def Tensor.numel (t : Tensor α) : Nat := t.shape.prod

/-- `size(-1)`: the last-dimension width. -/
def Tensor.sizeLast (t : Tensor α) : Nat := t.shape.getLastD 0

/-- `size(1)`: the second dimension (used on the `[max_position, rot_dim]`
cos/sin cache). -/
def Tensor.size1 (t : Tensor α) : Nat := t.shape.getD 1 0

namespace vllm

/-- The buffer index holding the first component of rotation pair `i`:
`i` itself in neox (split-half) style, `2*i` in interleaved (GPT-J) style. -/
def pairX (isNeox : Bool) (e i : Nat) : Nat := if isNeox then i else 2 * i

/-- The buffer index holding the second component of rotation pair `i`:
`e + i` in neox style, `2*i + 1` in interleaved style. -/
def pairY (isNeox : Bool) (e i : Nat) : Nat := if isNeox then e + i else 2 * i + 1

/-- The rotation pair that buffer index `j < 2*e` belongs to. -/
def pairIdx (isNeox : Bool) (e j : Nat) : Nat := if isNeox then j % e else j / 2

/-- Whether buffer index `j` is the first (x) component of its pair. -/
def isXSlot (isNeox : Bool) (e j : Nat) : Bool :=
  if isNeox then decide (j < e) else decide (j % 2 = 0)

/-- Modelled from the spec: the body of `vllm::rotary_embedding_kernel` is not
in the repository fragment (only its declaration and launch sites are), so the
per-head rotation is reconstructed from spec sections 4.2 and the glossary.
For a head slice `f` (indices `0 ≤ j < head_size`) and a per-token cache row
`row` of width `rot_dim`, with `e = rot_dim / 2` rotation pairs:
cos is read at `row i` and sin at `row (e + i)`; neox style pairs indices
`(i, e + i)` (split-half), interleaved (GPT-J) style pairs `(2i, 2i+1)`;
the pair `(x, y)` becomes `(x*cos - y*sin, y*cos + x*sin)`; indices at or
beyond `2*e` pass through unchanged. -/
def rotary_embedding_kernel_head [CommRing α] (isNeox : Bool) (rotDim : Nat)
    (row : Nat → α) (f : Nat → α) : Nat → α :=
  fun j =>
    let e := rotDim / 2
    if j < 2 * e then
      let i := pairIdx isNeox e j
      let c := row i
      let s := row (e + i)
      let x := f (pairX isNeox e i)
      let y := f (pairY isNeox e i)
      if isXSlot isNeox e j then x * c - y * s else y * c + x * s
    else f j

/-- Modelled from the spec: the work unit for one token.  The token's row
starts at `t * stride` in the flat buffer; the unit transforms the
`numHeads * headSize` elements of that row (all of the token's assigned heads)
with `rotary_embedding_kernel_head` and leaves every other address unchanged. -/
def rotary_embedding_kernel_token [CommRing α] (isNeox : Bool) (row : Nat → α)
    (rotDim numHeads headSize stride t : Nat) (buf : Nat → α) : Nat → α :=
  fun a =>
    if t * stride ≤ a ∧ a - t * stride < numHeads * headSize then
      let off := a - t * stride
      rotary_embedding_kernel_head isNeox rotDim row
        (fun k => buf (t * stride + off / headSize * headSize + k)) (off % headSize)
    else buf a

/-- Modelled from the spec: the whole-buffer effect of the kernel launch, one
independent work unit per token index `t < n`.  The units touch pairwise
disjoint regions (`stride ≥ numHeads * headSize` for valid inputs), so folding
them in token order is a faithful sequentialisation of the parallel launch. -/
def rotary_embedding_kernel [CommRing α] (isNeox : Bool) (rowOf : Nat → Nat → α)
    (rotDim numHeads headSize stride : Nat) : Nat → (Nat → α) → (Nat → α)
  | 0, buf => buf
  | n + 1, buf =>
      rotary_embedding_kernel_token isNeox (rowOf n) rotDim numHeads headSize stride n
        (rotary_embedding_kernel isNeox rowOf rotDim numHeads headSize stride n buf)

end vllm

/-- The per-token cos/sin row of the `[max_position, rot_dim]` cache: token `t`
with position id `positions t` reads cache row `positions t`. -/
def cacheRowOf (positions : Nat → Nat) (cacheData : Nat → α) (rotDim : Nat) :
    Nat → Nat → α :=
  fun t i => cacheData (positions t * rotDim + i)

/-- What `rotary_embedding` in the GPU backend produces: the derived shape
descriptor, the launch configuration (`grid` blocks of `block` threads), the
template variant that was launched, and the transformed query/key buffers. -/
structure CallResult (α : Type) where
  num_tokens : Nat
  rot_dim : Nat
  num_heads : Nat
  num_kv_heads : Nat
  query_stride : Nat
  key_stride : Nat
  grid : Nat
  block : Nat
  neoxVariant : Bool
  query : Nat → α
  key : Nat → α

/-- The generic GPU dispatcher `rotary_embedding` of `src/unnamed/part_000`.
It derives `num_tokens = query.numel() / query.size(-1)`,
`rot_dim = cos_sin_cache.size(1)`, `num_heads = query.size(-1) / head_size`,
`num_kv_heads = key.size(-1) / head_size` (truncating division, no validation),
builds `grid = num_tokens` and `block = min(num_heads * rot_dim / 2, 512)`,
dispatches on the floating dtype (`VLLM_DISPATCH_FLOATING_TYPES` raises on any
other dtype before any launch), and launches `vllm::rotary_embedding_kernel`
instantiated at `IS_NEOX = true` or `false` according to `is_neox`.
`rotary_embedding_run` is the computation guarded by the dtype dispatch. -/
def rotary_embedding_run [CommRing α] (positions : Nat → Nat)
    (query key : Tensor α) (head_size : Nat) (cos_sin_cache : Tensor α)
    (is_neox : Bool) : CallResult α :=
  let num_tokens := query.numel / query.sizeLast
  let rot_dim := cos_sin_cache.size1
  let num_heads := query.sizeLast / head_size
  let num_kv_heads := key.sizeLast / head_size
  let query_stride := query.strideNeg2
  let key_stride := key.strideNeg2
  let grid := num_tokens
  let block := min (num_heads * rot_dim / 2) 512
  if is_neox then
    { num_tokens := num_tokens, rot_dim := rot_dim, num_heads := num_heads
      num_kv_heads := num_kv_heads, query_stride := query_stride
      key_stride := key_stride, grid := grid, block := block
      neoxVariant := true
      query := vllm.rotary_embedding_kernel true
        (cacheRowOf positions cos_sin_cache.data rot_dim) rot_dim num_heads
        head_size query_stride num_tokens query.data
      key := vllm.rotary_embedding_kernel true
        (cacheRowOf positions cos_sin_cache.data rot_dim) rot_dim num_kv_heads
        head_size key_stride num_tokens key.data }
  else
    { num_tokens := num_tokens, rot_dim := rot_dim, num_heads := num_heads
      num_kv_heads := num_kv_heads, query_stride := query_stride
      key_stride := key_stride, grid := grid, block := block
      neoxVariant := false
      query := vllm.rotary_embedding_kernel false
        (cacheRowOf positions cos_sin_cache.data rot_dim) rot_dim num_heads
        head_size query_stride num_tokens query.data
      key := vllm.rotary_embedding_kernel false
        (cacheRowOf positions cos_sin_cache.data rot_dim) rot_dim num_kv_heads
        head_size key_stride num_tokens key.data }

/-- The dtype dispatch of the GPU backend: `VLLM_DISPATCH_FLOATING_TYPES`
raises for a dtype outside the supported floating set before any kernel
launch; for a supported dtype the descriptor is derived and the kernel
launched as in `rotary_embedding_run`. -/
def rotary_embedding [CommRing α] (isFloatingType : DType → Bool)
    (positions : Nat → Nat) (query key : Tensor α) (head_size : Nat)
    (cos_sin_cache : Tensor α) (is_neox : Bool) : Except String (CallResult α) :=
  if isFloatingType query.dtype then
    .ok (rotary_embedding_run positions query key head_size cos_sin_cache is_neox)
  else
    .error "rotary_embedding: unsupported dtype"

/-- What `vllm_ascend::rotary_embedding` produces: the derived shape
descriptor, the device id whose platform information was queried, the "aiv"
core count obtained from it, the per-core loop count, and the transformed
buffers.  The NPU binding has no failure path: the handler always submits. -/
structure NpuCallResult (α : Type) where
  num_tokens : Nat
  rot_dim : Nat
  num_heads : Nat
  num_kv_heads : Nat
  query_stride : Nat
  key_stride : Nat
  queriedDevice : Nat
  aivNum : Nat
  loopCnt : Nat
  query : Nat → α
  key : Nat → α

namespace vllm_ascend

/-- The NPU dispatcher `vllm_ascend::rotary_embedding` of
`src/csrc/torch_binding.cpp`.  It derives the same shape descriptor as the GPU
backend (lines 36-46, truncating division, no validation of any precondition),
then the custom handler queries the runtime platform information for the
hard-coded `device_id = 0` (lines 35 and 56-57, regardless of the device the
tensors reside on), reads `aivNum = GetCoreNumByType("aiv")`, sizes
`loop_cnt = (num_tokens + aivNum - 1) / aivNum`, and submits
`rotary_embedding_kernel` (line 60; the AscendC kernel body is outside the
fragment and is modelled from the spec as computing the same transform over
all `num_tokens` tokens).  `aivNumOf` embeds the platform query: the core
count reported for each device id. -/
def rotary_embedding [CommRing α] (aivNumOf : Nat → Nat) (positions : Nat → Nat)
    (query key : Tensor α) (head_size : Nat) (cos_sin_cache : Tensor α)
    (is_neox : Bool) : NpuCallResult α :=
  let num_tokens := query.numel / query.sizeLast
  let rot_dim := cos_sin_cache.size1
  let num_heads := query.sizeLast / head_size
  let num_kv_heads := key.sizeLast / head_size
  let query_stride := query.strideNeg2
  let key_stride := key.strideNeg2
  let device_id : Nat := 0
  let aivNum := aivNumOf device_id
  let loop_cnt := (num_tokens + aivNum - 1) / aivNum
  { num_tokens := num_tokens, rot_dim := rot_dim, num_heads := num_heads
    num_kv_heads := num_kv_heads, query_stride := query_stride
    key_stride := key_stride, queriedDevice := device_id, aivNum := aivNum
    loopCnt := loop_cnt
    query := vllm.rotary_embedding_kernel is_neox
      (cacheRowOf positions cos_sin_cache.data rot_dim) rot_dim num_heads
      head_size query_stride num_tokens query.data
    key := vllm.rotary_embedding_kernel is_neox
      (cacheRowOf positions cos_sin_cache.data rot_dim) rot_dim num_kv_heads
      head_size key_stride num_tokens key.data }

end vllm_ascend

/-! ## Kernel lemmas -/

namespace vllm

/-- The x-slot of an in-range pair lies inside the rotated prefix. -/
theorem pairX_lt (isNeox : Bool) (e i : Nat) (hi : i < e) :
    pairX isNeox e i < 2 * e := by
  cases isNeox <;> simp [pairX] <;> omega

/-- The y-slot of an in-range pair lies inside the rotated prefix. -/
theorem pairY_lt (isNeox : Bool) (e i : Nat) (hi : i < e) :
    pairY isNeox e i < 2 * e := by
  cases isNeox <;> simp [pairY] <;> omega

/-- The pair index of the x-slot of pair `i` is `i` again. -/
theorem pairIdx_pairX (isNeox : Bool) (e i : Nat) (hi : i < e) :
    pairIdx isNeox e (pairX isNeox e i) = i := by
  cases isNeox
  · simp [pairIdx, pairX]
  · simp [pairIdx, pairX, Nat.mod_eq_of_lt hi]

/-- The pair index of the y-slot of pair `i` is `i` again. -/
theorem pairIdx_pairY (isNeox : Bool) (e i : Nat) (hi : i < e) :
    pairIdx isNeox e (pairY isNeox e i) = i := by
  cases isNeox
  · simp [pairIdx, pairY]
    omega
  · simp [pairIdx, pairY, Nat.add_mod_left, Nat.mod_eq_of_lt hi]

/-- The x-slot of a pair is recognised as an x-slot. -/
theorem isXSlot_pairX (isNeox : Bool) (e i : Nat) (hi : i < e) :
    isXSlot isNeox e (pairX isNeox e i) = true := by
  cases isNeox
  · simp [isXSlot, pairX]
  · simp [isXSlot, pairX]
    exact hi

/-- The y-slot of a pair is recognised as a y-slot. -/
theorem isXSlot_pairY (isNeox : Bool) (e i : Nat) (hi : i < e) :
    isXSlot isNeox e (pairY isNeox e i) = false := by
  cases isNeox
  · simp [isXSlot, pairY]
    omega
  · simp [isXSlot, pairY]

/-- Evaluating the modelled kernel head at the x-slot of rotation pair `i`. -/
theorem rotary_embedding_kernel_head_x [CommRing α] (isNeox : Bool) (rotDim : Nat)
    (row f : Nat → α) (i : Nat) (hi : i < rotDim / 2) :
    rotary_embedding_kernel_head isNeox rotDim row f (pairX isNeox (rotDim / 2) i)
      = f (pairX isNeox (rotDim / 2) i) * row i
        - f (pairY isNeox (rotDim / 2) i) * row (rotDim / 2 + i) := by
  have h1 : pairX isNeox (rotDim / 2) i < 2 * (rotDim / 2) :=
    pairX_lt isNeox (rotDim / 2) i hi
  simp [rotary_embedding_kernel_head, h1, pairIdx_pairX isNeox (rotDim / 2) i hi,
    isXSlot_pairX isNeox (rotDim / 2) i hi]

/-- Evaluating the modelled kernel head at the y-slot of rotation pair `i`. -/
theorem rotary_embedding_kernel_head_y [CommRing α] (isNeox : Bool) (rotDim : Nat)
    (row f : Nat → α) (i : Nat) (hi : i < rotDim / 2) :
    rotary_embedding_kernel_head isNeox rotDim row f (pairY isNeox (rotDim / 2) i)
      = f (pairY isNeox (rotDim / 2) i) * row i
        + f (pairX isNeox (rotDim / 2) i) * row (rotDim / 2 + i) := by
  have h1 : pairY isNeox (rotDim / 2) i < 2 * (rotDim / 2) :=
    pairY_lt isNeox (rotDim / 2) i hi
  simp [rotary_embedding_kernel_head, h1, pairIdx_pairY isNeox (rotDim / 2) i hi,
    isXSlot_pairY isNeox (rotDim / 2) i hi]

/-- Indices at or beyond `2 * (rot_dim / 2)` pass through the kernel head. -/
theorem rotary_embedding_kernel_head_pass [CommRing α] (isNeox : Bool) (rotDim : Nat)
    (row f : Nat → α) (j : Nat) (hj : 2 * (rotDim / 2) ≤ j) :
    rotary_embedding_kernel_head isNeox rotDim row f j = f j := by
  simp only [rotary_embedding_kernel_head]
  rw [if_neg (by omega)]

/-- Every in-range index is the x-slot or the y-slot of some rotation pair. -/
theorem exists_pair (isNeox : Bool) (e j : Nat) (hj : j < 2 * e) :
    (∃ i, i < e ∧ j = pairX isNeox e i) ∨ (∃ i, i < e ∧ j = pairY isNeox e i) := by
  cases isNeox
  · by_cases hq : j % 2 = 0
    · exact Or.inl ⟨j / 2, by omega, by simp [pairX]; omega⟩
    · exact Or.inr ⟨j / 2, by omega, by simp [pairY]; omega⟩
  · by_cases hq : j < e
    · exact Or.inl ⟨j, hq, by simp [pairX]⟩
    · exact Or.inr ⟨j - e, by omega, by simp [pairY]; omega⟩

/-- The kernel head reads its input slice only below `head_size`, provided
`2 * (rot_dim / 2) ≤ head_size` and the output index is below `head_size`. -/
theorem rotary_embedding_kernel_head_congr [CommRing α] (isNeox : Bool)
    (rotDim hs j : Nat) (row f g : Nat → α) (h2e : 2 * (rotDim / 2) ≤ hs)
    (hj : j < hs) (hfg : ∀ k, k < hs → f k = g k) :
    rotary_embedding_kernel_head isNeox rotDim row f j
      = rotary_embedding_kernel_head isNeox rotDim row g j := by
  by_cases hj2 : j < 2 * (rotDim / 2)
  · rcases exists_pair isNeox (rotDim / 2) j hj2 with ⟨i, hi, rfl⟩ | ⟨i, hi, rfl⟩
    · rw [rotary_embedding_kernel_head_x isNeox rotDim row f i hi,
        rotary_embedding_kernel_head_x isNeox rotDim row g i hi,
        hfg (pairX isNeox (rotDim / 2) i)
          (by have := pairX_lt isNeox (rotDim / 2) i hi; omega),
        hfg (pairY isNeox (rotDim / 2) i)
          (by have := pairY_lt isNeox (rotDim / 2) i hi; omega)]
    · rw [rotary_embedding_kernel_head_y isNeox rotDim row f i hi,
        rotary_embedding_kernel_head_y isNeox rotDim row g i hi,
        hfg (pairX isNeox (rotDim / 2) i)
          (by have := pairX_lt isNeox (rotDim / 2) i hi; omega),
        hfg (pairY isNeox (rotDim / 2) i)
          (by have := pairY_lt isNeox (rotDim / 2) i hi; omega)]
  · rw [rotary_embedding_kernel_head_pass isNeox rotDim row f _ (by omega),
      rotary_embedding_kernel_head_pass isNeox rotDim row g _ (by omega),
      hfg _ hj]

/-- A work unit leaves every address outside its token's head region alone. -/
theorem rotary_embedding_kernel_token_outside [CommRing α] (isNeox : Bool)
    (row : Nat → α) (rotDim nh hs st t a : Nat) (buf : Nat → α)
    (h : ¬ (t * st ≤ a ∧ a - t * st < nh * hs)) :
    rotary_embedding_kernel_token isNeox row rotDim nh hs st t buf a = buf a := by
  simp only [rotary_embedding_kernel_token]
  rw [if_neg h]

/-- The head regions of two distinct tokens are disjoint whenever the row
stride is at least the row width. -/
theorem token_regions_disjoint (nh hs st t u a : Nat) (hW : nh * hs ≤ st)
    (htu : t ≠ u) (h1 : t * st ≤ a ∧ a - t * st < nh * hs) :
    ¬ (u * st ≤ a ∧ a - u * st < nh * hs) := by
  rintro ⟨h2l, h2r⟩
  rcases Nat.lt_or_ge t u with hlt | hge
  · have hmul : (t + 1) * st ≤ u * st := Nat.mul_le_mul_right st hlt
    have hexp : (t + 1) * st = t * st + st := by ring
    omega
  · have hlt' : u < t := by omega
    have hmul : (u + 1) * st ≤ t * st := Nat.mul_le_mul_right st hlt'
    have hexp : (u + 1) * st = u * st + st := by ring
    omega

/-- A work unit evaluated inside its region computes the kernel head of the
addressed head at the addressed within-head index. -/
theorem rotary_embedding_kernel_token_at [CommRing α] (isNeox : Bool)
    (row : Nat → α) (rotDim nh hs st t h j : Nat) (buf : Nat → α)
    (hhs : 0 < hs) (hh : h < nh) (hj : j < hs) :
    rotary_embedding_kernel_token isNeox row rotDim nh hs st t buf
        (t * st + h * hs + j)
      = rotary_embedding_kernel_head isNeox rotDim row
          (fun k => buf (t * st + h * hs + k)) j := by
  have hoff : t * st + h * hs + j - t * st = h * hs + j := by omega
  have hlt : h * hs + j < nh * hs := by
    have hmul : (h + 1) * hs ≤ nh * hs := Nat.mul_le_mul_right hs hh
    have hexp : (h + 1) * hs = h * hs + hs := by ring
    omega
  have hdiv : (h * hs + j) / hs = h := by
    rw [Nat.mul_comm, Nat.mul_add_div hhs, Nat.div_eq_of_lt hj]
    omega
  have hmod : (h * hs + j) % hs = j := by
    rw [Nat.mul_comm, Nat.mul_add_mod, Nat.mod_eq_of_lt hj]
  simp only [rotary_embedding_kernel_token, hoff, hdiv, hmod]
  rw [if_pos ⟨by omega, hlt⟩]

end vllm

namespace vllm

/-- Work units for tokens below `n` never touch the head region of a token
`t ≥ n` (regions are disjoint when the row stride covers the row width). -/
theorem rotary_embedding_kernel_untouched [CommRing α] (isNeox : Bool)
    (rowOf : Nat → Nat → α) (rotDim nh hs st : Nat) (hW : nh * hs ≤ st)
    (n t a : Nat) (buf : Nat → α) (hn : n ≤ t)
    (ha : t * st ≤ a ∧ a - t * st < nh * hs) :
    rotary_embedding_kernel isNeox rowOf rotDim nh hs st n buf a = buf a := by
  induction n with
  | zero => rfl
  | succ m ih =>
    show rotary_embedding_kernel_token isNeox (rowOf m) rotDim nh hs st m
        (rotary_embedding_kernel isNeox rowOf rotDim nh hs st m buf) a = buf a
    rw [rotary_embedding_kernel_token_outside isNeox (rowOf m) rotDim nh hs st m a _
        (token_regions_disjoint nh hs st t m a hW (by omega) ha)]
    exact ih (by omega)

/-- The launched kernel, evaluated at within-head index `j` of head `h` of
token `t < n`: exactly token `t`'s work unit acts there, computing the kernel
head from the original contents of that token's row. -/
theorem rotary_embedding_kernel_at [CommRing α] (isNeox : Bool)
    (rowOf : Nat → Nat → α) (rotDim nh hs st n t h j : Nat) (buf : Nat → α)
    (hW : nh * hs ≤ st) (hhs : 0 < hs) (h2e : 2 * (rotDim / 2) ≤ hs)
    (ht : t < n) (hh : h < nh) (hj : j < hs) :
    rotary_embedding_kernel isNeox rowOf rotDim nh hs st n buf (t * st + h * hs + j)
      = rotary_embedding_kernel_head isNeox rotDim (rowOf t)
          (fun k => buf (t * st + h * hs + k)) j := by
  have hregk : ∀ k, k < hs →
      t * st ≤ t * st + h * hs + k ∧ t * st + h * hs + k - t * st < nh * hs := by
    intro k hk
    have hmul : (h + 1) * hs ≤ nh * hs := Nat.mul_le_mul_right hs hh
    have hexp : (h + 1) * hs = h * hs + hs := by ring
    omega
  induction n with
  | zero => exact absurd ht (by omega)
  | succ m ih =>
    show rotary_embedding_kernel_token isNeox (rowOf m) rotDim nh hs st m
        (rotary_embedding_kernel isNeox rowOf rotDim nh hs st m buf)
        (t * st + h * hs + j) = _
    by_cases htm : t = m
    · subst htm
      rw [rotary_embedding_kernel_token_at isNeox (rowOf t) rotDim nh hs st t h j _
        hhs hh hj]
      exact rotary_embedding_kernel_head_congr isNeox rotDim hs j (rowOf t) _ _ h2e hj
        (fun k hk => rotary_embedding_kernel_untouched isNeox rowOf rotDim nh hs st hW
          t t _ buf le_rfl (hregk k hk))
    · rw [rotary_embedding_kernel_token_outside isNeox (rowOf m) rotDim nh hs st m _ _
          (token_regions_disjoint nh hs st t m _ hW htm (hregk j hj))]
      exact ih (by omega)

/-- Neox specialisation of `rotary_embedding_kernel_head_x`: the x-slot of
pair `i` is index `i` and its partner is `rot_dim/2 + i`. -/
theorem rotary_embedding_kernel_head_neox_x [CommRing α] (rotDim : Nat)
    (row f : Nat → α) (i : Nat) (hi : i < rotDim / 2) :
    rotary_embedding_kernel_head true rotDim row f i
      = f i * row i - f (rotDim / 2 + i) * row (rotDim / 2 + i) := by
  have h := rotary_embedding_kernel_head_x true rotDim row f i hi
  simpa [pairX, pairY] using h

/-- Neox specialisation of `rotary_embedding_kernel_head_y`. -/
theorem rotary_embedding_kernel_head_neox_y [CommRing α] (rotDim : Nat)
    (row f : Nat → α) (i : Nat) (hi : i < rotDim / 2) :
    rotary_embedding_kernel_head true rotDim row f (rotDim / 2 + i)
      = f (rotDim / 2 + i) * row i + f i * row (rotDim / 2 + i) := by
  have h := rotary_embedding_kernel_head_y true rotDim row f i hi
  simpa [pairX, pairY] using h

end vllm

/-- `(n + a - 1) / a` is the ceiling of `n / a`: it is the least work-unit
count whose `a` lanes cover all `n` tokens. -/
theorem ceil_div_spec (nt a : Nat) (ha : 0 < a) :
    nt ≤ (nt + a - 1) / a * a ∧ ∀ m, nt ≤ m * a → (nt + a - 1) / a ≤ m := by
  constructor
  · have hdm := Nat.div_add_mod (nt + a - 1) a
    have hmod : (nt + a - 1) % a < a := Nat.mod_lt _ ha
    have hcomm : a * ((nt + a - 1) / a) = (nt + a - 1) / a * a := Nat.mul_comm _ _
    omega
  · intro m hm
    have h1 : nt + a - 1 ≤ m * a + (a - 1) := by omega
    have h2 : (nt + a - 1) / a ≤ (m * a + (a - 1)) / a := Nat.div_le_div_right h1
    have h3 : (m * a + (a - 1)) / a = m + (a - 1) / a := by
      rw [Nat.mul_comm m a, Nat.mul_add_div ha]
    have h4 : (a - 1) / a = 0 := Nat.div_eq_of_lt (by omega)
    omega

/-- The NPU binding's query output is the kernel over `num_tokens` tokens. -/
theorem npu_query_def [CommRing α] (aivNumOf : Nat → Nat) (positions : Nat → Nat)
    (query key : Tensor α) (head_size : Nat) (cos_sin_cache : Tensor α)
    (is_neox : Bool) :
    (vllm_ascend.rotary_embedding aivNumOf positions query key head_size
        cos_sin_cache is_neox).query
      = vllm.rotary_embedding_kernel is_neox
          (cacheRowOf positions cos_sin_cache.data cos_sin_cache.size1)
          cos_sin_cache.size1 (query.sizeLast / head_size) head_size
          query.strideNeg2 (query.numel / query.sizeLast) query.data := rfl

/-- The NPU binding's key output is the kernel over `num_tokens` tokens with
`num_kv_heads` heads and the key stride. -/
theorem npu_key_def [CommRing α] (aivNumOf : Nat → Nat) (positions : Nat → Nat)
    (query key : Tensor α) (head_size : Nat) (cos_sin_cache : Tensor α)
    (is_neox : Bool) :
    (vllm_ascend.rotary_embedding aivNumOf positions query key head_size
        cos_sin_cache is_neox).key
      = vllm.rotary_embedding_kernel is_neox
          (cacheRowOf positions cos_sin_cache.data cos_sin_cache.size1)
          cos_sin_cache.size1 (key.sizeLast / head_size) head_size
          key.strideNeg2 (query.numel / query.sizeLast) key.data := rfl

/-- The GPU launch's query output, whichever template variant was selected. -/
theorem run_query_def [CommRing α] (positions : Nat → Nat) (query key : Tensor α)
    (head_size : Nat) (cos_sin_cache : Tensor α) (is_neox : Bool) :
    (rotary_embedding_run positions query key head_size cos_sin_cache is_neox).query
      = vllm.rotary_embedding_kernel is_neox
          (cacheRowOf positions cos_sin_cache.data cos_sin_cache.size1)
          cos_sin_cache.size1 (query.sizeLast / head_size) head_size
          query.strideNeg2 (query.numel / query.sizeLast) query.data := by
  cases is_neox <;> rfl

/-- The GPU launch's key output, whichever template variant was selected. -/
theorem run_key_def [CommRing α] (positions : Nat → Nat) (query key : Tensor α)
    (head_size : Nat) (cos_sin_cache : Tensor α) (is_neox : Bool) :
    (rotary_embedding_run positions query key head_size cos_sin_cache is_neox).key
      = vllm.rotary_embedding_kernel is_neox
          (cacheRowOf positions cos_sin_cache.data cos_sin_cache.size1)
          cos_sin_cache.size1 (key.sizeLast / head_size) head_size
          key.strideNeg2 (query.numel / query.sizeLast) key.data := by
  cases is_neox <;> rfl

/-! ## Concrete instances for witnesses and counterexamples -/

/-- A realistic supported set for the floating-dtype dispatch. -/
def floatTypes : DType → Bool
  | .f16 => true
  | .bf16 => true
  | .f32 => true
  | .f64 => true
  | .i32 => false
  | .i64 => false

/-- One token, last-dimension width 4, distinguishable integer values. -/
def exQuery : Tensor ℤ where
  shape := [1, 4]
  strideNeg2 := 4
  dtype := .f32
  device := 0
  data := fun a =>
    if a = 0 then 5 else if a = 1 then 7 else if a = 2 then 11 else
    if a = 3 then 13 else 0

/-- One token, last-dimension width 3, constant values. -/
def exKey3 : Tensor ℤ where
  shape := [1, 3]
  strideNeg2 := 3
  dtype := .f32
  device := 0
  data := fun _ => 1

/-- One token, last-dimension width 2, constant values. -/
def exKey2 : Tensor ℤ where
  shape := [1, 2]
  strideNeg2 := 2
  dtype := .f32
  device := 0
  data := fun _ => 1

/-- One token, last-dimension width 4, constant values. -/
def exKey4 : Tensor ℤ where
  shape := [1, 4]
  strideNeg2 := 4
  dtype := .f32
  device := 0
  data := fun _ => 1

/-- Cos/sin cache whose row 0 holds cos = 2, sin = 3 (arbitrary ring values;
the kernel formula does not require a unit modulus). -/
def exCache : Tensor ℤ where
  shape := [4, 2]
  strideNeg2 := 2
  dtype := .f32
  device := 0
  data := fun a => if a = 0 then 2 else if a = 1 then 3 else 0

/-- Cos/sin cache with an odd second dimension (`rot_dim = 3`), row 0 holding
cos = 2, sin = 3. -/
def exCache3 : Tensor ℤ where
  shape := [4, 3]
  strideNeg2 := 3
  dtype := .f32
  device := 0
  data := fun a => if a = 0 then 2 else if a = 1 then 3 else 0

/-! ## Claims -/

/-- C2: for every call, the shape descriptor is derived exactly as
`num_tokens = query.numel() / query.size(-1)` (equivalently the product of the
leading dimensions), `rot_dim = cos_sin_cache.size(1)`,
`num_heads = query.size(-1) / head_size` and
`num_kv_heads = key.size(-1) / head_size`, in both the NPU binding and the GPU
dispatcher. -/
theorem C2_shape_descriptor [CommRing α] (isFloatingType : DType → Bool)
    (aivNumOf : Nat → Nat) (positions : Nat → Nat) (query key : Tensor α)
    (head_size : Nat) (cos_sin_cache : Tensor α) (is_neox : Bool)
    (l : List Nat) (d : Nat) (hshape : query.shape = l ++ [d]) (hd : 0 < d)
    (hft : isFloatingType query.dtype = true) :
    (vllm_ascend.rotary_embedding aivNumOf positions query key head_size
        cos_sin_cache is_neox).num_tokens = query.numel / query.sizeLast
    ∧ (vllm_ascend.rotary_embedding aivNumOf positions query key head_size
        cos_sin_cache is_neox).rot_dim = cos_sin_cache.size1
    ∧ (vllm_ascend.rotary_embedding aivNumOf positions query key head_size
        cos_sin_cache is_neox).num_heads = query.sizeLast / head_size
    ∧ (vllm_ascend.rotary_embedding aivNumOf positions query key head_size
        cos_sin_cache is_neox).num_kv_heads = key.sizeLast / head_size
    ∧ query.numel / query.sizeLast = l.prod
    ∧ rotary_embedding isFloatingType positions query key head_size cos_sin_cache
        is_neox
        = .ok (rotary_embedding_run positions query key head_size cos_sin_cache
            is_neox)
    ∧ (rotary_embedding_run positions query key head_size cos_sin_cache
        is_neox).num_tokens = query.numel / query.sizeLast
    ∧ (rotary_embedding_run positions query key head_size cos_sin_cache
        is_neox).rot_dim = cos_sin_cache.size1
    ∧ (rotary_embedding_run positions query key head_size cos_sin_cache
        is_neox).num_heads = query.sizeLast / head_size
    ∧ (rotary_embedding_run positions query key head_size cos_sin_cache
        is_neox).num_kv_heads = key.sizeLast / head_size := by
  refine ⟨rfl, rfl, rfl, rfl, ?_, ?_, ?_, ?_, ?_, ?_⟩
  · have hlast : query.sizeLast = d := by
      simp [Tensor.sizeLast, hshape, List.getLastD_concat]
    have hprod : query.numel = l.prod * d := by
      simp [Tensor.numel, hshape]
    rw [hlast, hprod, Nat.mul_div_cancel _ hd]
  · simp [rotary_embedding, hft]
  · cases is_neox <;> rfl
  · cases is_neox <;> rfl
  · cases is_neox <;> rfl
  · cases is_neox <;> rfl

/-- Witness for C2 at a concrete call: query shape `[1, 4]`, head_size 2. -/
theorem C2_shape_descriptor_witness :
    exQuery.shape = [1] ++ [4] ∧ 0 < 4 ∧ floatTypes exQuery.dtype = true
    ∧ ((vllm_ascend.rotary_embedding (fun _ => 2) (fun _ => 0) exQuery exKey2 2
          exCache true).num_tokens = exQuery.numel / exQuery.sizeLast
      ∧ (vllm_ascend.rotary_embedding (fun _ => 2) (fun _ => 0) exQuery exKey2 2
          exCache true).rot_dim = exCache.size1
      ∧ (vllm_ascend.rotary_embedding (fun _ => 2) (fun _ => 0) exQuery exKey2 2
          exCache true).num_heads = exQuery.sizeLast / 2
      ∧ (vllm_ascend.rotary_embedding (fun _ => 2) (fun _ => 0) exQuery exKey2 2
          exCache true).num_kv_heads = exKey2.sizeLast / 2
      ∧ exQuery.numel / exQuery.sizeLast = [1].prod
      ∧ rotary_embedding floatTypes (fun _ => 0) exQuery exKey2 2 exCache true
          = .ok (rotary_embedding_run (fun _ => 0) exQuery exKey2 2 exCache true)
      ∧ (rotary_embedding_run (fun _ => 0) exQuery exKey2 2 exCache
          true).num_tokens = exQuery.numel / exQuery.sizeLast
      ∧ (rotary_embedding_run (fun _ => 0) exQuery exKey2 2 exCache
          true).rot_dim = exCache.size1
      ∧ (rotary_embedding_run (fun _ => 0) exQuery exKey2 2 exCache
          true).num_heads = exQuery.sizeLast / 2
      ∧ (rotary_embedding_run (fun _ => 0) exQuery exKey2 2 exCache
          true).num_kv_heads = exKey2.sizeLast / 2) :=
  ⟨rfl, by decide, by decide,
    C2_shape_descriptor floatTypes (fun _ => 2) (fun _ => 0) exQuery exKey2 2
      exCache true [1] 4 rfl (by decide) (by decide)⟩

/-- C5: the `is_neox` flag alone selects which template variant of the kernel
is launched: whenever the dtype dispatch accepts the call, the launched
variant is exactly `is_neox`, whatever every other input is. -/
theorem C5_variant_selection [CommRing α] (isFloatingType : DType → Bool)
    (positions : Nat → Nat) (query key : Tensor α) (head_size : Nat)
    (cos_sin_cache : Tensor α) (is_neox : Bool) :
    (rotary_embedding isFloatingType positions query key head_size cos_sin_cache
        is_neox).map CallResult.neoxVariant
      = if isFloatingType query.dtype then .ok is_neox
        else .error "rotary_embedding: unsupported dtype" := by
  by_cases hft : isFloatingType query.dtype = true
  · simp only [rotary_embedding, hft, if_true]
    cases is_neox <;> rfl
  · simp only [rotary_embedding, hft, Bool.false_eq_true, if_false]
    rfl

/-- C9: the GPU backend's per-block thread count is
`min(num_heads * rot_dim / 2, 512)`, hence capped at 512. -/
theorem C9_block_size [CommRing α] (isFloatingType : DType → Bool)
    (positions : Nat → Nat) (query key : Tensor α) (head_size : Nat)
    (cos_sin_cache : Tensor α) (is_neox : Bool) :
    (rotary_embedding_run positions query key head_size cos_sin_cache
        is_neox).block
      = min (query.sizeLast / head_size * cos_sin_cache.size1 / 2) 512
    ∧ (rotary_embedding_run positions query key head_size cos_sin_cache
        is_neox).block ≤ 512
    ∧ (rotary_embedding isFloatingType positions query key head_size
        cos_sin_cache is_neox).map CallResult.block
      = if isFloatingType query.dtype
        then .ok (min (query.sizeLast / head_size * cos_sin_cache.size1 / 2) 512)
        else .error "rotary_embedding: unsupported dtype" := by
  have hb : (rotary_embedding_run positions query key head_size cos_sin_cache
      is_neox).block
      = min (query.sizeLast / head_size * cos_sin_cache.size1 / 2) 512 := by
    cases is_neox <;> rfl
  refine ⟨hb, by rw [hb]; exact Nat.min_le_right _ _, ?_⟩
  by_cases hft : isFloatingType query.dtype = true
  · simp only [rotary_embedding, hft, if_true, Except.map, hb]
  · simp only [rotary_embedding, hft, Bool.false_eq_true, if_false]
    rfl

/-- C6: the dispatch launches exactly one parallel work unit per token
(`grid = num_tokens`, the kernel over `n + 1` tokens is the kernel over `n`
tokens plus the single unit of token `n`), and each unit runs the rotary
transform over every one of its token's assigned heads. -/
theorem C6_one_unit_per_token [CommRing α] (positions : Nat → Nat)
    (query key : Tensor α) (head_size : Nat) (cos_sin_cache : Tensor α)
    (is_neox : Bool) (t h j : Nat) (buf : Nat → α)
    (hhs : 0 < head_size) (hh : h < query.sizeLast / head_size)
    (hj : j < head_size) :
    (rotary_embedding_run positions query key head_size cos_sin_cache
        is_neox).grid = query.numel / query.sizeLast
    ∧ (rotary_embedding_run positions query key head_size cos_sin_cache
        is_neox).query
      = vllm.rotary_embedding_kernel is_neox
          (cacheRowOf positions cos_sin_cache.data cos_sin_cache.size1)
          cos_sin_cache.size1 (query.sizeLast / head_size) head_size
          query.strideNeg2 (query.numel / query.sizeLast) query.data
    ∧ (rotary_embedding_run positions query key head_size cos_sin_cache
        is_neox).key
      = vllm.rotary_embedding_kernel is_neox
          (cacheRowOf positions cos_sin_cache.data cos_sin_cache.size1)
          cos_sin_cache.size1 (key.sizeLast / head_size) head_size
          key.strideNeg2 (query.numel / query.sizeLast) key.data
    ∧ vllm.rotary_embedding_kernel is_neox
        (cacheRowOf positions cos_sin_cache.data cos_sin_cache.size1)
        cos_sin_cache.size1 (query.sizeLast / head_size) head_size
        query.strideNeg2 (t + 1) buf
      = vllm.rotary_embedding_kernel_token is_neox
          (cacheRowOf positions cos_sin_cache.data cos_sin_cache.size1 t)
          cos_sin_cache.size1 (query.sizeLast / head_size) head_size
          query.strideNeg2 t
          (vllm.rotary_embedding_kernel is_neox
            (cacheRowOf positions cos_sin_cache.data cos_sin_cache.size1)
            cos_sin_cache.size1 (query.sizeLast / head_size) head_size
            query.strideNeg2 t buf)
    ∧ vllm.rotary_embedding_kernel_token is_neox
        (cacheRowOf positions cos_sin_cache.data cos_sin_cache.size1 t)
        cos_sin_cache.size1 (query.sizeLast / head_size) head_size
        query.strideNeg2 t buf (t * query.strideNeg2 + h * head_size + j)
      = vllm.rotary_embedding_kernel_head is_neox cos_sin_cache.size1
          (cacheRowOf positions cos_sin_cache.data cos_sin_cache.size1 t)
          (fun k => buf (t * query.strideNeg2 + h * head_size + k)) j :=
  ⟨by cases is_neox <;> rfl,
    run_query_def positions query key head_size cos_sin_cache is_neox,
    run_key_def positions query key head_size cos_sin_cache is_neox, rfl,
    vllm.rotary_embedding_kernel_token_at is_neox
      (cacheRowOf positions cos_sin_cache.data cos_sin_cache.size1 t)
      cos_sin_cache.size1 (query.sizeLast / head_size) head_size
      query.strideNeg2 t h j buf hhs hh hj⟩

/-- Witness for C6 at a concrete call: head_size 2, token 0, head 1. -/
theorem C6_one_unit_per_token_witness :
    0 < 2 ∧ 1 < exQuery.sizeLast / 2 ∧ 0 < 2
    ∧ ((rotary_embedding_run (fun _ => 0) exQuery exKey2 2 exCache true).grid
          = exQuery.numel / exQuery.sizeLast
      ∧ (rotary_embedding_run (fun _ => 0) exQuery exKey2 2 exCache true).query
          = vllm.rotary_embedding_kernel true
              (cacheRowOf (fun _ => 0) exCache.data exCache.size1) exCache.size1
              (exQuery.sizeLast / 2) 2 exQuery.strideNeg2
              (exQuery.numel / exQuery.sizeLast) exQuery.data
      ∧ (rotary_embedding_run (fun _ => 0) exQuery exKey2 2 exCache true).key
          = vllm.rotary_embedding_kernel true
              (cacheRowOf (fun _ => 0) exCache.data exCache.size1) exCache.size1
              (exKey2.sizeLast / 2) 2 exKey2.strideNeg2
              (exQuery.numel / exQuery.sizeLast) exKey2.data
      ∧ vllm.rotary_embedding_kernel true
            (cacheRowOf (fun _ => 0) exCache.data exCache.size1) exCache.size1
            (exQuery.sizeLast / 2) 2 exQuery.strideNeg2 (0 + 1) exQuery.data
          = vllm.rotary_embedding_kernel_token true
              (cacheRowOf (fun _ => 0) exCache.data exCache.size1 0)
              exCache.size1 (exQuery.sizeLast / 2) 2 exQuery.strideNeg2 0
              (vllm.rotary_embedding_kernel true
                (cacheRowOf (fun _ => 0) exCache.data exCache.size1)
                exCache.size1 (exQuery.sizeLast / 2) 2 exQuery.strideNeg2 0
                exQuery.data)
      ∧ vllm.rotary_embedding_kernel_token true
            (cacheRowOf (fun _ => 0) exCache.data exCache.size1 0) exCache.size1
            (exQuery.sizeLast / 2) 2 exQuery.strideNeg2 0 exQuery.data
            (0 * exQuery.strideNeg2 + 1 * 2 + 0)
          = vllm.rotary_embedding_kernel_head true exCache.size1
              (cacheRowOf (fun _ => 0) exCache.data exCache.size1 0)
              (fun k => exQuery.data (0 * exQuery.strideNeg2 + 1 * 2 + k)) 0) :=
  ⟨by decide, by decide, by decide,
    C6_one_unit_per_token (fun _ => 0) exQuery exKey2 2 exCache true 0 1 0
      exQuery.data (by decide) (by decide) (by decide)⟩

/-- C3: in neox style, for token `t`, head `h` (resp. key head `kh`) and pair
index `i < rot_dim/2`, the transform reads `cos = cache[position[t]][i]` and
`sin = cache[position[t]][i + rot_dim/2]`, pairs element `i` of the head's
slice with element `i + rot_dim/2`, and writes `x1' = x1*cos - x2*sin`,
`x2' = x2*cos + x1*sin`; the identical transform is applied to the query
buffer over `num_heads` heads and the key buffer over `num_kv_heads` heads
with the same per-token cos/sin row. -/
theorem C3_neox_pairing [CommRing α] (aivNumOf : Nat → Nat)
    (positions : Nat → Nat) (query key : Tensor α) (head_size : Nat)
    (cos_sin_cache : Tensor α) (t h kh i : Nat)
    (hWq : query.sizeLast / head_size * head_size ≤ query.strideNeg2)
    (hWk : key.sizeLast / head_size * head_size ≤ key.strideNeg2)
    (hhs : 0 < head_size)
    (h2e : 2 * (cos_sin_cache.size1 / 2) ≤ head_size)
    (ht : t < query.numel / query.sizeLast)
    (hh : h < query.sizeLast / head_size)
    (hkh : kh < key.sizeLast / head_size)
    (hi : i < cos_sin_cache.size1 / 2) :
    ((vllm_ascend.rotary_embedding aivNumOf positions query key head_size
        cos_sin_cache true).query (t * query.strideNeg2 + h * head_size + i)
      = query.data (t * query.strideNeg2 + h * head_size + i)
          * cos_sin_cache.data (positions t * cos_sin_cache.size1 + i)
        - query.data (t * query.strideNeg2 + h * head_size
              + (cos_sin_cache.size1 / 2 + i))
          * cos_sin_cache.data (positions t * cos_sin_cache.size1
              + (cos_sin_cache.size1 / 2 + i)))
    ∧ ((vllm_ascend.rotary_embedding aivNumOf positions query key head_size
        cos_sin_cache true).query (t * query.strideNeg2 + h * head_size
          + (cos_sin_cache.size1 / 2 + i))
      = query.data (t * query.strideNeg2 + h * head_size
              + (cos_sin_cache.size1 / 2 + i))
          * cos_sin_cache.data (positions t * cos_sin_cache.size1 + i)
        + query.data (t * query.strideNeg2 + h * head_size + i)
          * cos_sin_cache.data (positions t * cos_sin_cache.size1
              + (cos_sin_cache.size1 / 2 + i)))
    ∧ ((vllm_ascend.rotary_embedding aivNumOf positions query key head_size
        cos_sin_cache true).key (t * key.strideNeg2 + kh * head_size + i)
      = key.data (t * key.strideNeg2 + kh * head_size + i)
          * cos_sin_cache.data (positions t * cos_sin_cache.size1 + i)
        - key.data (t * key.strideNeg2 + kh * head_size
              + (cos_sin_cache.size1 / 2 + i))
          * cos_sin_cache.data (positions t * cos_sin_cache.size1
              + (cos_sin_cache.size1 / 2 + i)))
    ∧ ((vllm_ascend.rotary_embedding aivNumOf positions query key head_size
        cos_sin_cache true).key (t * key.strideNeg2 + kh * head_size
          + (cos_sin_cache.size1 / 2 + i))
      = key.data (t * key.strideNeg2 + kh * head_size
              + (cos_sin_cache.size1 / 2 + i))
          * cos_sin_cache.data (positions t * cos_sin_cache.size1 + i)
        + key.data (t * key.strideNeg2 + kh * head_size + i)
          * cos_sin_cache.data (positions t * cos_sin_cache.size1
              + (cos_sin_cache.size1 / 2 + i))) := by
  refine ⟨?_, ?_, ?_, ?_⟩
  · rw [npu_query_def,
      vllm.rotary_embedding_kernel_at true
        (cacheRowOf positions cos_sin_cache.data cos_sin_cache.size1)
        cos_sin_cache.size1 (query.sizeLast / head_size) head_size
        query.strideNeg2 (query.numel / query.sizeLast) t h i query.data
        hWq hhs h2e ht hh (by omega),
      vllm.rotary_embedding_kernel_head_neox_x cos_sin_cache.size1 _ _ i hi]
    simp [cacheRowOf]
  · rw [npu_query_def,
      vllm.rotary_embedding_kernel_at true
        (cacheRowOf positions cos_sin_cache.data cos_sin_cache.size1)
        cos_sin_cache.size1 (query.sizeLast / head_size) head_size
        query.strideNeg2 (query.numel / query.sizeLast) t h
        (cos_sin_cache.size1 / 2 + i) query.data hWq hhs h2e ht hh (by omega),
      vllm.rotary_embedding_kernel_head_neox_y cos_sin_cache.size1 _ _ i hi]
    simp [cacheRowOf]
  · rw [npu_key_def,
      vllm.rotary_embedding_kernel_at true
        (cacheRowOf positions cos_sin_cache.data cos_sin_cache.size1)
        cos_sin_cache.size1 (key.sizeLast / head_size) head_size
        key.strideNeg2 (query.numel / query.sizeLast) t kh i key.data
        hWk hhs h2e ht hkh (by omega),
      vllm.rotary_embedding_kernel_head_neox_x cos_sin_cache.size1 _ _ i hi]
    simp [cacheRowOf]
  · rw [npu_key_def,
      vllm.rotary_embedding_kernel_at true
        (cacheRowOf positions cos_sin_cache.data cos_sin_cache.size1)
        cos_sin_cache.size1 (key.sizeLast / head_size) head_size
        key.strideNeg2 (query.numel / query.sizeLast) t kh
        (cos_sin_cache.size1 / 2 + i) key.data hWk hhs h2e ht hkh (by omega),
      vllm.rotary_embedding_kernel_head_neox_y cos_sin_cache.size1 _ _ i hi]
    simp [cacheRowOf]

/-- Witness for C3: head_size 2, query head 1 holds (11, 13), cos = 2,
sin = 3, so the x-slot becomes 11*2 - 13*3 = -17 and the y-slot
13*2 + 11*3 = 59; the key head holds (1, 1), giving -1 and 5. -/
theorem C3_neox_pairing_witness :
    exQuery.sizeLast / 2 * 2 ≤ exQuery.strideNeg2
    ∧ exKey2.sizeLast / 2 * 2 ≤ exKey2.strideNeg2
    ∧ 0 < 2 ∧ 2 * (exCache.size1 / 2) ≤ 2
    ∧ 0 < exQuery.numel / exQuery.sizeLast
    ∧ 1 < exQuery.sizeLast / 2 ∧ 0 < exKey2.sizeLast / 2
    ∧ 0 < exCache.size1 / 2
    ∧ ((vllm_ascend.rotary_embedding (fun _ => 2) (fun _ => 0) exQuery exKey2 2
          exCache true).query (0 * exQuery.strideNeg2 + 1 * 2 + 0)
        = exQuery.data (0 * exQuery.strideNeg2 + 1 * 2 + 0)
            * exCache.data ((fun _ => 0) 0 * exCache.size1 + 0)
          - exQuery.data (0 * exQuery.strideNeg2 + 1 * 2 + (exCache.size1 / 2 + 0))
            * exCache.data ((fun _ => 0) 0 * exCache.size1 + (exCache.size1 / 2 + 0)))
    ∧ (vllm_ascend.rotary_embedding (fun _ => 2) (fun _ => 0) exQuery exKey2 2
          exCache true).query (0 * exQuery.strideNeg2 + 1 * 2 + 0) = -17
    ∧ (vllm_ascend.rotary_embedding (fun _ => 2) (fun _ => 0) exQuery exKey2 2
          exCache true).query (0 * exQuery.strideNeg2 + 1 * 2
            + (exCache.size1 / 2 + 0)) = 59
    ∧ (vllm_ascend.rotary_embedding (fun _ => 2) (fun _ => 0) exQuery exKey2 2
          exCache true).key (0 * exKey2.strideNeg2 + 0 * 2 + 0) = -1
    ∧ (vllm_ascend.rotary_embedding (fun _ => 2) (fun _ => 0) exQuery exKey2 2
          exCache true).key (0 * exKey2.strideNeg2 + 0 * 2
            + (exCache.size1 / 2 + 0)) = 5 :=
  ⟨by decide, by decide, by decide, by decide, by decide, by decide, by decide,
    by decide,
    (C3_neox_pairing (fun _ => 2) (fun _ => 0) exQuery exKey2 2 exCache 0 1 0 0
      (by decide) (by decide) (by decide) (by decide) (by decide) (by decide)
      (by decide) (by decide)).1,
    by decide, by decide, by decide, by decide⟩

/-- C7: for valid inputs, output query and key elements at within-head indices
at or beyond `rot_dim` are exactly the corresponding input elements: the tail
of each head's slice passes through unchanged. -/
theorem C7_passthrough [CommRing α] (aivNumOf : Nat → Nat)
    (positions : Nat → Nat) (query key : Tensor α) (head_size : Nat)
    (cos_sin_cache : Tensor α) (is_neox : Bool) (t h kh j : Nat)
    (hWq : query.sizeLast / head_size * head_size ≤ query.strideNeg2)
    (hWk : key.sizeLast / head_size * head_size ≤ key.strideNeg2)
    (hhs : 0 < head_size)
    (hrd : cos_sin_cache.size1 ≤ head_size)
    (ht : t < query.numel / query.sizeLast)
    (hh : h < query.sizeLast / head_size)
    (hkh : kh < key.sizeLast / head_size)
    (hj : cos_sin_cache.size1 ≤ j) (hjh : j < head_size) :
    (vllm_ascend.rotary_embedding aivNumOf positions query key head_size
        cos_sin_cache is_neox).query (t * query.strideNeg2 + h * head_size + j)
      = query.data (t * query.strideNeg2 + h * head_size + j)
    ∧ (vllm_ascend.rotary_embedding aivNumOf positions query key head_size
        cos_sin_cache is_neox).key (t * key.strideNeg2 + kh * head_size + j)
      = key.data (t * key.strideNeg2 + kh * head_size + j) := by
  constructor
  · rw [npu_query_def,
      vllm.rotary_embedding_kernel_at is_neox
        (cacheRowOf positions cos_sin_cache.data cos_sin_cache.size1)
        cos_sin_cache.size1 (query.sizeLast / head_size) head_size
        query.strideNeg2 (query.numel / query.sizeLast) t h j query.data
        hWq hhs (by omega) ht hh hjh,
      vllm.rotary_embedding_kernel_head_pass is_neox cos_sin_cache.size1 _ _ j
        (by omega)]
  · rw [npu_key_def,
      vllm.rotary_embedding_kernel_at is_neox
        (cacheRowOf positions cos_sin_cache.data cos_sin_cache.size1)
        cos_sin_cache.size1 (key.sizeLast / head_size) head_size
        key.strideNeg2 (query.numel / query.sizeLast) t kh j key.data
        hWk hhs (by omega) ht hkh hjh,
      vllm.rotary_embedding_kernel_head_pass is_neox cos_sin_cache.size1 _ _ j
        (by omega)]

/-- Witness for C7: head_size 4, rot_dim 2, within-head index 2 ≥ rot_dim
passes through (query value 11, key value 1). -/
theorem C7_passthrough_witness :
    exQuery.sizeLast / 4 * 4 ≤ exQuery.strideNeg2
    ∧ exKey4.sizeLast / 4 * 4 ≤ exKey4.strideNeg2
    ∧ 0 < 4 ∧ exCache.size1 ≤ 4
    ∧ 0 < exQuery.numel / exQuery.sizeLast
    ∧ 0 < exQuery.sizeLast / 4 ∧ 0 < exKey4.sizeLast / 4
    ∧ exCache.size1 ≤ 2 ∧ 2 < 4
    ∧ ((vllm_ascend.rotary_embedding (fun _ => 2) (fun _ => 0) exQuery exKey4 4
          exCache true).query (0 * exQuery.strideNeg2 + 0 * 4 + 2)
        = exQuery.data (0 * exQuery.strideNeg2 + 0 * 4 + 2)
      ∧ (vllm_ascend.rotary_embedding (fun _ => 2) (fun _ => 0) exQuery exKey4 4
          exCache true).key (0 * exKey4.strideNeg2 + 0 * 4 + 2)
        = exKey4.data (0 * exKey4.strideNeg2 + 0 * 4 + 2)) :=
  ⟨by decide, by decide, by decide, by decide, by decide, by decide, by decide,
    by decide, by decide,
    C7_passthrough (fun _ => 2) (fun _ => 0) exQuery exKey4 4 exCache true 0 0 0 2
      (by decide) (by decide) (by decide) (by decide) (by decide) (by decide)
      (by decide) (by decide) (by decide)⟩

/-- C8: applying the rotary transform with `(cos θ, sin θ)` and then with
`(cos θ, -sin θ)` returns the original vector — exactly, over the reals, at
every index and in both styles, hence in particular within any floating-point
tolerance (rotation inverse law). -/
theorem C8_rotation_inverse (θ : ℝ) (isNeox : Bool) (rotDim : Nat)
    (f : Nat → ℝ) (j : Nat) :
    vllm.rotary_embedding_kernel_head isNeox rotDim
        (fun idx => if idx < rotDim / 2 then Real.cos θ else -Real.sin θ)
        (vllm.rotary_embedding_kernel_head isNeox rotDim
          (fun idx => if idx < rotDim / 2 then Real.cos θ else Real.sin θ) f) j
      = f j := by
  have hpyth := Real.sin_sq_add_cos_sq θ
  by_cases hj : j < 2 * (rotDim / 2)
  · have hni : ∀ i, i < rotDim / 2 → ¬ (rotDim / 2 + i < rotDim / 2) := by
      intro i hi
      omega
    rcases vllm.exists_pair isNeox (rotDim / 2) j hj with ⟨i, hi, rfl⟩ | ⟨i, hi, rfl⟩
    · rw [vllm.rotary_embedding_kernel_head_x isNeox rotDim
          (fun idx => if idx < rotDim / 2 then Real.cos θ else -Real.sin θ) _ i hi,
        vllm.rotary_embedding_kernel_head_x isNeox rotDim
          (fun idx => if idx < rotDim / 2 then Real.cos θ else Real.sin θ) f i hi,
        vllm.rotary_embedding_kernel_head_y isNeox rotDim
          (fun idx => if idx < rotDim / 2 then Real.cos θ else Real.sin θ) f i hi]
      simp only [if_pos hi, if_neg (hni i hi)]
      linear_combination f (vllm.pairX isNeox (rotDim / 2) i) * hpyth
    · rw [vllm.rotary_embedding_kernel_head_y isNeox rotDim
          (fun idx => if idx < rotDim / 2 then Real.cos θ else -Real.sin θ) _ i hi,
        vllm.rotary_embedding_kernel_head_x isNeox rotDim
          (fun idx => if idx < rotDim / 2 then Real.cos θ else Real.sin θ) f i hi,
        vllm.rotary_embedding_kernel_head_y isNeox rotDim
          (fun idx => if idx < rotDim / 2 then Real.cos θ else Real.sin θ) f i hi]
      simp only [if_pos hi, if_neg (hni i hi)]
      linear_combination f (vllm.pairY isNeox (rotDim / 2) i) * hpyth
  · rw [vllm.rotary_embedding_kernel_head_pass isNeox rotDim _ _ j (by omega),
      vllm.rotary_embedding_kernel_head_pass isNeox rotDim _ _ j (by omega)]

/-- C10: the NPU binding queries the platform information for hard-coded
device id 0 — whatever device the input tensors reside on — reads the aiv
core count there, and sizes the per-core loop count as
`(num_tokens + aivNum - 1) / aivNum`, the ceiling of `num_tokens / aivNum`:
the least count whose `aivNum` lanes cover all tokens. -/
theorem C10_npu_platform_query [CommRing α] (aivNumOf : Nat → Nat)
    (positions : Nat → Nat) (query key : Tensor α) (head_size : Nat)
    (cos_sin_cache : Tensor α) (is_neox : Bool) (ha : 0 < aivNumOf 0) :
    (vllm_ascend.rotary_embedding aivNumOf positions query key head_size
        cos_sin_cache is_neox).queriedDevice = 0
    ∧ (vllm_ascend.rotary_embedding aivNumOf positions query key head_size
        cos_sin_cache is_neox).aivNum = aivNumOf 0
    ∧ (vllm_ascend.rotary_embedding aivNumOf positions query key head_size
        cos_sin_cache is_neox).loopCnt
      = (query.numel / query.sizeLast + aivNumOf 0 - 1) / aivNumOf 0
    ∧ query.numel / query.sizeLast
      ≤ (vllm_ascend.rotary_embedding aivNumOf positions query key head_size
          cos_sin_cache is_neox).loopCnt * aivNumOf 0
    ∧ (∀ m, query.numel / query.sizeLast ≤ m * aivNumOf 0 →
        (vllm_ascend.rotary_embedding aivNumOf positions query key head_size
          cos_sin_cache is_neox).loopCnt ≤ m) :=
  ⟨rfl, rfl, rfl, (ceil_div_spec (query.numel / query.sizeLast) (aivNumOf 0) ha).1,
    (ceil_div_spec (query.numel / query.sizeLast) (aivNumOf 0) ha).2⟩

/-- Witness for C10 at a concrete call: the tensors reside on device 3, the
platform query nevertheless happens at device 0, whose core count is 2. -/
theorem C10_npu_platform_query_witness :
    0 < (fun _ : Nat => 2) 0
    ∧ ((vllm_ascend.rotary_embedding (fun _ => 2) (fun _ => 0)
          { exQuery with device := 3 } exKey2 2 exCache true).queriedDevice = 0
      ∧ (vllm_ascend.rotary_embedding (fun _ => 2) (fun _ => 0)
          { exQuery with device := 3 } exKey2 2 exCache true).aivNum
        = (fun _ : Nat => 2) 0
      ∧ (vllm_ascend.rotary_embedding (fun _ => 2) (fun _ => 0)
          { exQuery with device := 3 } exKey2 2 exCache true).loopCnt
        = (({ exQuery with device := 3 } : Tensor ℤ).numel
            / ({ exQuery with device := 3 } : Tensor ℤ).sizeLast
            + (fun _ : Nat => 2) 0 - 1) / (fun _ : Nat => 2) 0
      ∧ ({ exQuery with device := 3 } : Tensor ℤ).numel
          / ({ exQuery with device := 3 } : Tensor ℤ).sizeLast
        ≤ (vllm_ascend.rotary_embedding (fun _ => 2) (fun _ => 0)
            { exQuery with device := 3 } exKey2 2 exCache true).loopCnt
              * (fun _ : Nat => 2) 0
      ∧ (∀ m, ({ exQuery with device := 3 } : Tensor ℤ).numel
            / ({ exQuery with device := 3 } : Tensor ℤ).sizeLast
              ≤ m * (fun _ : Nat => 2) 0 →
          (vllm_ascend.rotary_embedding (fun _ => 2) (fun _ => 0)
            { exQuery with device := 3 } exKey2 2 exCache true).loopCnt ≤ m)) :=
  ⟨by decide,
    C10_npu_platform_query (fun _ => 2) (fun _ => 0)
      { exQuery with device := 3 } exKey2 2 exCache true (by decide)⟩

/-- Counterexample to C1: calls violating the preconditions do not fail.  A
call whose `head_size` (3) does not divide the query's last-dimension width
(4) is accepted, derives `num_heads = 4 / 3 = 1` by truncation, submits the
kernel, and transforms both buffers (query element 0 becomes 5*2 - 7*3 = -11,
key element 0 becomes 1*2 - 1*3 = -1) in both backends; likewise a call whose
`rot_dim` (3) is odd and exceeds `head_size` (2) is accepted and transforms
the query (element 0 becomes -11). -/
theorem C1_counterexample :
    exQuery.sizeLast % 3 ≠ 0
    ∧ rotary_embedding floatTypes (fun _ => 0) exQuery exKey3 3 exCache true
      = .ok (rotary_embedding_run (fun _ => 0) exQuery exKey3 3 exCache true)
    ∧ (rotary_embedding_run (fun _ => 0) exQuery exKey3 3 exCache
        true).num_heads = 1
    ∧ (rotary_embedding_run (fun _ => 0) exQuery exKey3 3 exCache true).query 0
      = -11
    ∧ exQuery.data 0 = 5
    ∧ (vllm_ascend.rotary_embedding (fun _ => 2) (fun _ => 0) exQuery exKey3 3
        exCache true).query 0 = -11
    ∧ (vllm_ascend.rotary_embedding (fun _ => 2) (fun _ => 0) exQuery exKey3 3
        exCache true).key 0 = -1
    ∧ exKey3.data 0 = 1
    ∧ exCache3.size1 % 2 ≠ 0
    ∧ 2 < exCache3.size1
    ∧ rotary_embedding floatTypes (fun _ => 0) exQuery exKey2 2 exCache3 true
      = .ok (rotary_embedding_run (fun _ => 0) exQuery exKey2 2 exCache3 true)
    ∧ (rotary_embedding_run (fun _ => 0) exQuery exKey2 2 exCache3 true).query 0
      = -11
    ∧ (vllm_ascend.rotary_embedding (fun _ => 2) (fun _ => 0) exQuery exKey2 2
        exCache3 true).query 0 = -11 :=
  ⟨by decide, rfl, by decide, by decide, by decide, by decide, by decide,
    by decide, by decide, by decide, rfl, by decide, by decide⟩

/-- C1 (amended): neither dispatcher validates any of the stated
preconditions.  A call in which `head_size` does not evenly divide the
query's or the key's last-dimension width, or in which `rot_dim` is odd, or
in which `rot_dim` exceeds `head_size`, is not rejected: the head counts are
derived by truncating division and the kernel is submitted over both the
query and the key buffer as usual, in both backends.  (The GPU backend's
dtype dispatch is the only synchronous rejection, and it concerns dtype
only.) -/
theorem C1_no_shape_validation [CommRing α] (isFloatingType : DType → Bool)
    (aivNumOf : Nat → Nat) (positions : Nat → Nat) (query key : Tensor α)
    (head_size : Nat) (cos_sin_cache : Tensor α) (is_neox : Bool)
    (hviol : query.sizeLast % head_size ≠ 0 ∨ key.sizeLast % head_size ≠ 0
      ∨ cos_sin_cache.size1 % 2 ≠ 0 ∨ head_size < cos_sin_cache.size1)
    (hft : isFloatingType query.dtype = true) :
    rotary_embedding isFloatingType positions query key head_size cos_sin_cache
        is_neox
      = .ok (rotary_embedding_run positions query key head_size cos_sin_cache
          is_neox)
    ∧ (rotary_embedding_run positions query key head_size cos_sin_cache
        is_neox).num_heads = query.sizeLast / head_size
    ∧ (rotary_embedding_run positions query key head_size cos_sin_cache
        is_neox).num_kv_heads = key.sizeLast / head_size
    ∧ (rotary_embedding_run positions query key head_size cos_sin_cache
        is_neox).query
      = vllm.rotary_embedding_kernel is_neox
          (cacheRowOf positions cos_sin_cache.data cos_sin_cache.size1)
          cos_sin_cache.size1 (query.sizeLast / head_size) head_size
          query.strideNeg2 (query.numel / query.sizeLast) query.data
    ∧ (rotary_embedding_run positions query key head_size cos_sin_cache
        is_neox).key
      = vllm.rotary_embedding_kernel is_neox
          (cacheRowOf positions cos_sin_cache.data cos_sin_cache.size1)
          cos_sin_cache.size1 (key.sizeLast / head_size) head_size
          key.strideNeg2 (query.numel / query.sizeLast) key.data
    ∧ (vllm_ascend.rotary_embedding aivNumOf positions query key head_size
        cos_sin_cache is_neox).query
      = vllm.rotary_embedding_kernel is_neox
          (cacheRowOf positions cos_sin_cache.data cos_sin_cache.size1)
          cos_sin_cache.size1 (query.sizeLast / head_size) head_size
          query.strideNeg2 (query.numel / query.sizeLast) query.data
    ∧ (vllm_ascend.rotary_embedding aivNumOf positions query key head_size
        cos_sin_cache is_neox).key
      = vllm.rotary_embedding_kernel is_neox
          (cacheRowOf positions cos_sin_cache.data cos_sin_cache.size1)
          cos_sin_cache.size1 (key.sizeLast / head_size) head_size
          key.strideNeg2 (query.numel / query.sizeLast) key.data :=
  ⟨by simp [rotary_embedding, hft], by cases is_neox <;> rfl,
    by cases is_neox <;> rfl,
    run_query_def positions query key head_size cos_sin_cache is_neox,
    run_key_def positions query key head_size cos_sin_cache is_neox,
    npu_query_def aivNumOf positions query key head_size cos_sin_cache is_neox,
    npu_key_def aivNumOf positions query key head_size cos_sin_cache is_neox⟩

/-- Witness for the amended C1, exercising two violation families: the call
with `head_size = 3` on a width-4 query (divisibility violation on query) and
the call with the `[4, 3]` cache (`rot_dim = 3` odd and above
`head_size = 2`) are both accepted and submitted. -/
theorem C1_no_shape_validation_witness :
    (exQuery.sizeLast % 3 ≠ 0 ∨ exKey3.sizeLast % 3 ≠ 0
      ∨ exCache.size1 % 2 ≠ 0 ∨ 3 < exCache.size1)
    ∧ floatTypes exQuery.dtype = true
    ∧ rotary_embedding floatTypes (fun _ => 0) exQuery exKey3 3 exCache true
      = .ok (rotary_embedding_run (fun _ => 0) exQuery exKey3 3 exCache true)
    ∧ (exQuery.sizeLast % 2 ≠ 0 ∨ exKey2.sizeLast % 2 ≠ 0
      ∨ exCache3.size1 % 2 ≠ 0 ∨ 2 < exCache3.size1)
    ∧ rotary_embedding floatTypes (fun _ => 0) exQuery exKey2 2 exCache3 true
      = .ok (rotary_embedding_run (fun _ => 0) exQuery exKey2 2 exCache3 true) :=
  ⟨by decide, by decide,
    (C1_no_shape_validation floatTypes (fun _ => 2) (fun _ => 0) exQuery exKey3
      3 exCache true (by decide) (by decide)).1,
    by decide,
    (C1_no_shape_validation floatTypes (fun _ => 2) (fun _ => 0) exQuery exKey2
      2 exCache3 true (by decide) (by decide)).1⟩

/-- Counterexample to C4: a call with a shape mismatch on query
(`head_size = 3`, width 4) is not rejected, and it does modify the key
buffer: key element 0 becomes 1*2 - 1*3 = -1 ≠ 1.  There is thus no rejected
call that leaves the key buffer untouched — rejection never happens. -/
theorem C4_counterexample :
    exQuery.sizeLast % 3 ≠ 0
    ∧ rotary_embedding floatTypes (fun _ => 0) exQuery exKey3 3 exCache true
      = .ok (rotary_embedding_run (fun _ => 0) exQuery exKey3 3 exCache true)
    ∧ (rotary_embedding_run (fun _ => 0) exQuery exKey3 3 exCache true).key 0
      = -1
    ∧ exKey3.data 0 = 1
    ∧ (rotary_embedding_run (fun _ => 0) exQuery exKey3 3 exCache true).key 0
      ≠ exKey3.data 0
    ∧ (vllm_ascend.rotary_embedding (fun _ => 2) (fun _ => 0) exQuery exKey3 3
        exCache true).key 0 ≠ exKey3.data 0 :=
  ⟨by decide, rfl, by decide, by decide, by decide, by decide⟩

/-- C4 (amended): the operation never rejects a call for its shape; every
call — valid or not — runs the kernel over all `num_tokens` tokens on both
the query and the key buffer, in both backends.  The single failure path,
the GPU backend's unsupported-dtype rejection, occurs before any kernel
launch, so a failed call touches no buffer; there is no other
partial-completion state. -/
theorem C4_no_partial_completion [CommRing α] (isFloatingType : DType → Bool)
    (aivNumOf : Nat → Nat) (positions : Nat → Nat) (query key : Tensor α)
    (head_size : Nat) (cos_sin_cache : Tensor α) (is_neox : Bool) :
    (vllm_ascend.rotary_embedding aivNumOf positions query key head_size
        cos_sin_cache is_neox).query
      = vllm.rotary_embedding_kernel is_neox
          (cacheRowOf positions cos_sin_cache.data cos_sin_cache.size1)
          cos_sin_cache.size1 (query.sizeLast / head_size) head_size
          query.strideNeg2 (query.numel / query.sizeLast) query.data
    ∧ (vllm_ascend.rotary_embedding aivNumOf positions query key head_size
        cos_sin_cache is_neox).key
      = vllm.rotary_embedding_kernel is_neox
          (cacheRowOf positions cos_sin_cache.data cos_sin_cache.size1)
          cos_sin_cache.size1 (key.sizeLast / head_size) head_size
          key.strideNeg2 (query.numel / query.sizeLast) key.data
    ∧ (rotary_embedding_run positions query key head_size cos_sin_cache
        is_neox).query
      = vllm.rotary_embedding_kernel is_neox
          (cacheRowOf positions cos_sin_cache.data cos_sin_cache.size1)
          cos_sin_cache.size1 (query.sizeLast / head_size) head_size
          query.strideNeg2 (query.numel / query.sizeLast) query.data
    ∧ (rotary_embedding_run positions query key head_size cos_sin_cache
        is_neox).key
      = vllm.rotary_embedding_kernel is_neox
          (cacheRowOf positions cos_sin_cache.data cos_sin_cache.size1)
          cos_sin_cache.size1 (key.sizeLast / head_size) head_size
          key.strideNeg2 (query.numel / query.sizeLast) key.data
    ∧ rotary_embedding isFloatingType positions query key head_size
        cos_sin_cache is_neox
      = (if isFloatingType query.dtype
          then .ok (rotary_embedding_run positions query key head_size
            cos_sin_cache is_neox)
          else .error "rotary_embedding: unsupported dtype") :=
  ⟨npu_query_def aivNumOf positions query key head_size cos_sin_cache is_neox,
    npu_key_def aivNumOf positions query key head_size cos_sin_cache is_neox,
    run_query_def positions query key head_size cos_sin_cache is_neox,
    run_key_def positions query key head_size cos_sin_cache is_neox, rfl⟩
